import Mathlib

/-!
Shallow embedding of the Water Safety Monitor core (`main.py`): the risk
scorer `calculate_risk_score`, the recommendation selector
`get_recommendations`, and the history manager (`save_to_history` and the
keep-last-10 truncation handler).  Numeric JSON values are modelled as
rationals; fields that may be missing or null are modelled as `Option`.
Timestamps are rationals measured in seconds, so `timedelta(days=30)`
becomes `30 * secondsPerDay`.
-/

/-- The `current` block of a weather response.  Each field may be absent
(or null); the code reads each with `.get(key, 0)`, i.e. a default of 0. -/
structure Current where
  temperature_2m : Option ℚ
  relative_humidity_2m : Option ℚ
  precipitation : Option ℚ
  rain : Option ℚ
deriving DecidableEq

/-- A weather response.  `hourly = some xs` exactly when the response has a
truthy `hourly` block that contains a `"precipitation"` series (the guard
`if hourly and "precipitation" in hourly` in the code); individual entries
of the series may be null (`none`). -/
structure WeatherData where
  current : Current
  hourly : Option (List (Option ℚ))
deriving DecidableEq

/-- Factor string for `f"Temperature ({temp}°C) in bacterial growth range"`. -/
def tempGrowthFactor (temp : ℚ) : String :=
  "Temperature (" ++ toString temp ++ "°C) in bacterial growth range"

/-- Factor string for `f"Very high temperature ({temp}°C)"`. -/
def veryHighTempFactor (temp : ℚ) : String :=
  "Very high temperature (" ++ toString temp ++ "°C)"

/-- Factor string for `f"High humidity ({humidity}%)"`. -/
def highHumidityFactor (humidity : ℚ) : String :=
  "High humidity (" ++ toString humidity ++ "%)"

/-- Factor string for `f"Active rainfall ({current_rain} mm)"`. -/
def activeRainfallFactor (mm : ℚ) : String :=
  "Active rainfall (" ++ toString mm ++ " mm)"

/-- Factor string for `f"Heavy rain in last 24h ({precip_24h:.1f} mm)"`. -/
def heavyRain24hFactor (mm : ℚ) : String :=
  "Heavy rain in last 24h (" ++ toString mm ++ " mm)"

/-- Factor string for `f"Moderate rain in last 24h ({precip_24h:.1f} mm)"`. -/
def moderateRain24hFactor (mm : ℚ) : String :=
  "Moderate rain in last 24h (" ++ toString mm ++ " mm)"

/-- Factor string for `f"Prolonged rainfall over 3 days ({precip_72h:.1f} mm)"`. -/
def prolongedRainFactor (mm : ℚ) : String :=
  "Prolonged rainfall over 3 days (" ++ toString mm ++ " mm)"

/-- Factor string for `f"Observation: {obs}"`. -/
def observationFactor (obs : String) : String :=
  "Observation: " ++ obs

/-- Python `a or b` on numbers: `b` when `a` is falsy (zero/absent), else `a`. -/
def pyOr (a b : ℚ) : ℚ :=
  if a = 0 then b else a

/-- Temperature risk block of `calculate_risk_score` (lines 188–195). -/
def tempContribution (current : Current) : ℚ × List String :=
  let temp := current.temperature_2m.getD 0
  if 20 ≤ temp ∧ temp ≤ 45 then
    (min 25 ((temp - 20) / 25 * 25), [tempGrowthFactor temp])
  else if 45 < temp then
    (15, [veryHighTempFactor temp])
  else
    (0, [])

/-- Humidity risk block of `calculate_risk_score` (lines 198–202). -/
def humidityContribution (current : Current) : ℚ × List String :=
  let humidity := current.relative_humidity_2m.getD 0
  if 70 < humidity then
    (min 15 ((humidity - 70) / 30 * 15), [highHumidityFactor humidity])
  else
    (0, [])

/-- Current-precipitation block of `calculate_risk_score` (lines 205–209):
`current_rain = current.get("precipitation", 0) or current.get("rain", 0)`,
then `if current_rain and current_rain > 0`. -/
def rainContribution (current : Current) : ℚ × List String :=
  let current_rain := pyOr (current.precipitation.getD 0) (current.rain.getD 0)
  if current_rain ≠ 0 ∧ 0 < current_rain then
    (min 20 (current_rain * 4), [activeRainfallFactor current_rain])
  else
    (0, [])

/-- Accumulated-precipitation block of `calculate_risk_score` (lines 212–226):
`precip_data = [p or 0 for p in hourly["precipitation"][-72:]]`,
`precip_24h = sum(precip_data[-24:])`, `precip_72h = sum(precip_data)`. -/
def hourlyContribution (hourly : Option (List (Option ℚ))) : ℚ × List String :=
  match hourly with
  | none => (0, [])
  | some hp =>
      let precip_data := (hp.drop (hp.length - 72)).map (fun p => p.getD 0)
      let precip_24h := (precip_data.drop (precip_data.length - 24)).sum
      let r24 : ℚ × List String :=
        if 10 < precip_24h then
          (min 25 ((precip_24h - 10) / 40 * 25), [heavyRain24hFactor precip_24h])
        else if 5 < precip_24h then
          (10, [moderateRain24hFactor precip_24h])
        else
          (0, [])
      let precip_72h := precip_data.sum
      let r72 : ℚ × List String :=
        if 50 < precip_72h then
          (15, [prolongedRainFactor precip_72h])
        else
          (0, [])
      (r24.1 + r72.1, r24.2 ++ r72.2)

/-- The observation risk mapping `obs_risk_map` (lines 229–237), in its
declared order. -/
def obsRiskMap : List (String × ℚ) :=
  [("Water looks cloudy/murky", 15),
   ("Unusual smell", 20),
   ("Visible contamination", 25),
   ("Nearby flooding", 20),
   ("Dead fish/animals nearby", 25),
   ("Industrial discharge observed", 30),
   ("Sewage overflow", 35)]

/-- One iteration of the observation loop (lines 238–241). -/
def obsStep (user_observations : List String) (acc : ℚ × List String)
    (p : String × ℚ) : ℚ × List String :=
  if p.1 ∈ user_observations then
    (acc.1 + p.2, acc.2 ++ [observationFactor p.1])
  else
    acc

/-- Observation block of `calculate_risk_score` (lines 238–241). -/
def obsContribution (user_observations : List String) : ℚ × List String :=
  obsRiskMap.foldl (obsStep user_observations) (0, [])

/-- The score-to-level mapping of `calculate_risk_score` (lines 245–250). -/
def riskLevelOf (risk_score : ℚ) : String :=
  if risk_score < 30 then "Safe"
  else if risk_score < 60 then "Caution"
  else "Unsafe"

/-- `calculate_risk_score` (lines 177–252): running score and factor list
accumulated over the five contribution blocks, clamped to `min(100, ·)`,
with level derived from the clamped score.  Absent weather short-circuits
to the fixed fallback (lines 181–182). -/
def calculate_risk_score (weather_data : Option WeatherData)
    (user_observations : List String) : ℚ × List String × String :=
  match weather_data with
  | none => (50, ["Unable to fetch weather data"], "Caution")
  | some wd =>
      let t := tempContribution wd.current
      let h := humidityContribution wd.current
      let r := rainContribution wd.current
      let a := hourlyContribution wd.hourly
      let o := obsContribution user_observations
      let risk_score := min 100 (t.1 + h.1 + r.1 + a.1 + o.1)
      (risk_score, t.2 ++ h.2 ++ r.2 ++ a.2 ++ o.2, riskLevelOf risk_score)

/-- A recommendation record: title, ordered action list, color tag. -/
structure Recommendation where
  title : String
  actions : List String
  color : String
deriving DecidableEq

/-- The `"Safe"` entry of the `recommendations` table (lines 256–265). -/
def safeRecommendation : Recommendation :=
  { title := "Water Appears Safe",
    actions :=
      ["Water quality indicators are within normal parameters",
       "Standard water usage is acceptable",
       "Continue monitoring conditions regularly",
       "Follow local water authority guidelines"],
    color := "safe" }

/-- The `"Caution"` entry of the `recommendations` table (lines 266–277). -/
def cautionRecommendation : Recommendation :=
  { title := "Exercise Caution",
    actions :=
      ["**Boil water for at least 1 minute before drinking**",
       "Use bottled water for drinking and cooking if available",
       "Wash hands thoroughly after water contact",
       "Monitor for any health symptoms",
       "Avoid using water for infant formula preparation",
       "Check with local water authorities for updates"],
    color := "caution" }

/-- The `"Unsafe"` entry of the `recommendations` table (lines 278–291). -/
def unsafeRecommendation : Recommendation :=
  { title := "Water Quality Alert - High Risk",
    actions :=
      ["**DO NOT drink tap water**",
       "Use only bottled or commercially treated water",
       "Avoid water contact with open wounds",
       "Do not use for cooking, brushing teeth, or ice making",
       "Boiling may not remove all contaminants",
       "Contact local health authorities immediately",
       "Consider evacuation if contamination is severe",
       "Monitor official advisories closely"],
    color := "unsafe" }

/-- The action inserted at the front when `risk_score >= 80` (line 295). -/
def criticalAction : String :=
  "⚠️ **CRITICAL**: Risk score is very high - take immediate action"

/-- `recommendations.get(risk_level, recommendations["Caution"])` (line 293):
dictionary lookup with the Caution entry as fallback. -/
def recommendationFor (risk_level : String) : Recommendation :=
  if risk_level = "Safe" then safeRecommendation
  else if risk_level = "Caution" then cautionRecommendation
  else if risk_level = "Unsafe" then unsafeRecommendation
  else cautionRecommendation

/-- `get_recommendations` (lines 254–296). -/
def get_recommendations (risk_level : String) (risk_score : ℚ) : Recommendation :=
  let r := recommendationFor risk_level
  if 80 ≤ risk_score then
    { r with actions := criticalAction :: r.actions }
  else
    r

/-- One day of `timedelta`, in the seconds scale used for timestamps. -/
def secondsPerDay : ℚ := 86400

/-- A persisted history record (the dict built at lines 299–312). -/
structure HistoryEntry where
  timestamp : ℚ
  location : String
  latitude : ℚ
  longitude : ℚ
  risk_score : ℚ
  risk_level : String
  risk_factors : List String
  observations : List String
  notes : String
  temperature : Option ℚ
  humidity : Option ℚ
  precipitation : ℚ
deriving DecidableEq

/-- The entry dict built by `save_to_history` (lines 299–312):
`timestamp = datetime.now()`, raw weather fields extracted from the
snapshot (`temperature_2m` and `relative_humidity_2m` without a default,
`precipitation` with default 0). -/
def mkHistoryEntry (now : ℚ) (location_name : String) (lat lon : ℚ)
    (weather_data : WeatherData) (risk_score : ℚ) (risk_level : String)
    (risk_factors : List String) (observations : List String)
    (notes : String) : HistoryEntry :=
  { timestamp := now,
    location := location_name,
    latitude := lat,
    longitude := lon,
    risk_score := risk_score,
    risk_level := risk_level,
    risk_factors := risk_factors,
    observations := observations,
    notes := notes,
    temperature := weather_data.current.temperature_2m,
    humidity := weather_data.current.relative_humidity_2m,
    precipitation := weather_data.current.precipitation.getD 0 }

/-- `save_to_history` (lines 298–320): append the new entry, then keep
exactly the entries with `datetime.fromisoformat(h["timestamp"]) > cutoff_date`
where `cutoff_date = datetime.now() - timedelta(days=30)`.  The persisted
file mirrors the returned collection, so it is not modelled separately. -/
def save_to_history (now : ℚ) (history : List HistoryEntry)
    (location_name : String) (lat lon : ℚ) (weather_data : WeatherData)
    (risk_score : ℚ) (risk_level : String) (risk_factors : List String)
    (observations : List String) (notes : String) : List HistoryEntry :=
  let entry := mkHistoryEntry now location_name lat lon weather_data
    risk_score risk_level risk_factors observations notes
  let cutoff_date := now - 30 * secondsPerDay
  (history ++ [entry]).filter (fun h => decide (cutoff_date < h.timestamp))

/-- The "Keep Last 10" handler (line 600): `history[:10]`. -/
def keep_last_10 (history : List HistoryEntry) : List HistoryEntry :=
  history.take 10

/-- Truncation to the N most recent entries, generalising the
"Keep Last 10" handler's `history[:10]` to an arbitrary N. -/
def truncate_history (n : ℕ) (history : List HistoryEntry) : List HistoryEntry :=
  history.take n

/-- Rank of a risk level, for stating that a level never moves to a lower
category: Safe < Caution < Unsafe. -/
def levelRank (risk_level : String) : ℕ :=
  if risk_level = "Safe" then 0
  else if risk_level = "Caution" then 1
  else 2

/-! ### Supporting lemmas -/

/-- Closed form of the observation loop: running it from any accumulator
adds the values of the matching mapping entries and appends their factor
strings in the mapping's declared order. -/
theorem obsStep_foldl (S : List String) (m : List (String × ℚ))
    (acc : ℚ × List String) :
    m.foldl (obsStep S) acc =
      (acc.1 + ((m.filter (fun p => decide (p.1 ∈ S))).map Prod.snd).sum,
       acc.2 ++ (m.filter (fun p => decide (p.1 ∈ S))).map
         (fun p => observationFactor p.1)) := by
  induction m generalizing acc with
  | nil => simp
  | cons p m ih =>
      by_cases hp : p.1 ∈ S
      · simp [obsStep, hp, ih, List.filter_cons, add_assoc]
      · simp [obsStep, hp, ih, List.filter_cons]

/-- Closed form of `obsContribution`. -/
theorem obsContribution_eq (S : List String) :
    obsContribution S =
      (((obsRiskMap.filter (fun p => decide (p.1 ∈ S))).map Prod.snd).sum,
       (obsRiskMap.filter (fun p => decide (p.1 ∈ S))).map
         (fun p => observationFactor p.1)) := by
  simpa [obsContribution] using obsStep_foldl S obsRiskMap (0, [])

/-- Every value in the observation mapping is non-negative. -/
theorem obsRiskMap_values_nonneg : ∀ p ∈ obsRiskMap, (0:ℚ) ≤ p.2 := by
  decide

/-- The temperature block contributes a non-negative amount. -/
theorem tempContribution_nonneg (c : Current) : 0 ≤ (tempContribution c).1 := by
  simp only [tempContribution]
  split_ifs with h1 h2
  · exact le_min (by norm_num)
      (mul_nonneg (div_nonneg (by linarith [h1.1]) (by norm_num)) (by norm_num))
  · norm_num
  · norm_num

/-- The humidity block contributes a non-negative amount. -/
theorem humidityContribution_nonneg (c : Current) :
    0 ≤ (humidityContribution c).1 := by
  simp only [humidityContribution]
  split_ifs with h1
  · exact le_min (by norm_num)
      (mul_nonneg (div_nonneg (by linarith) (by norm_num)) (by norm_num))
  · norm_num

/-- The current-precipitation block contributes a non-negative amount. -/
theorem rainContribution_nonneg (c : Current) : 0 ≤ (rainContribution c).1 := by
  simp only [rainContribution]
  split_ifs with h1
  · exact le_min (by norm_num) (by nlinarith [h1.2])
  · norm_num

/-- The accumulated-precipitation block contributes a non-negative amount. -/
theorem hourlyContribution_nonneg (hourly : Option (List (Option ℚ))) :
    0 ≤ (hourlyContribution hourly).1 := by
  cases hourly with
  | none => norm_num [hourlyContribution]
  | some hp =>
      simp only [hourlyContribution]
      apply add_nonneg
      · split_ifs with h1 h2
        · exact le_min (by norm_num)
            (mul_nonneg (div_nonneg (by linarith) (by norm_num)) (by norm_num))
        · norm_num
        · norm_num
      · split_ifs with h1
        · norm_num
        · norm_num

/-- The observation block contributes a non-negative amount. -/
theorem obsContribution_nonneg (S : List String) : 0 ≤ (obsContribution S).1 := by
  rw [obsContribution_eq]
  apply List.sum_nonneg
  intro x hx
  rcases List.mem_map.mp hx with ⟨p, hp, rfl⟩
  exact obsRiskMap_values_nonneg p (List.mem_filter.mp hp).1

/-- The returned level is the step function `riskLevelOf` of the returned
score, also on the absent-weather fallback path. -/
theorem calculate_risk_score_level_eq (w : Option WeatherData)
    (obs : List String) :
    (calculate_risk_score w obs).2.2 = riskLevelOf (calculate_risk_score w obs).1 := by
  cases w with
  | none => norm_num [calculate_risk_score, riskLevelOf]
  | some wd => rfl

/-- The 24-hour window taken inside the code (`precip_data[-24:]` of the
already-truncated `precip_data = hourly[-72:]`) is the last-24 window of
the raw hourly series itself. -/
theorem precipData_last24 (hp : List (Option ℚ)) :
    ((hp.drop (hp.length - 72)).map (fun p => p.getD 0)).drop
      (((hp.drop (hp.length - 72)).map (fun p => p.getD 0)).length - 24) =
    (hp.drop (hp.length - 24)).map (fun p => p.getD 0) := by
  rw [List.length_map, List.length_drop, ← List.map_drop, List.drop_drop]
  have h : hp.length - 72 + (hp.length - (hp.length - 72) - 24) = hp.length - 24 := by
    omega
  rw [h]

/-- Sum of the selected values grows when the selecting predicate grows,
provided all values are non-negative. -/
theorem filter_sum_mono (m : List (String × ℚ)) (f g : String × ℚ → Bool)
    (hv : ∀ p ∈ m, (0:ℚ) ≤ p.2) (hfg : ∀ p ∈ m, f p = true → g p = true) :
    ((m.filter f).map Prod.snd).sum ≤ ((m.filter g).map Prod.snd).sum := by
  induction m with
  | nil => simp
  | cons p m ih =>
      have hv' : ∀ q ∈ m, (0:ℚ) ≤ q.2 := fun q hq => hv q (List.mem_cons_of_mem p hq)
      have hfg' : ∀ q ∈ m, f q = true → g q = true :=
        fun q hq => hfg q (List.mem_cons_of_mem p hq)
      have hrec := ih hv' hfg'
      have hp0 : (0:ℚ) ≤ p.2 := hv p (List.mem_cons_self p m)
      by_cases hf : f p = true
      · have hg := hfg p (List.mem_cons_self p m) hf
        simp [List.filter_cons, hf, hg]
        linarith
      · by_cases hg : g p = true
        · simp [List.filter_cons, hf, hg]
          linarith
        · simp [List.filter_cons, hf, hg]
          exact hrec

/-- Enlarging the observation set (by membership) never decreases the
observation block's contribution. -/
theorem obsContribution_mono (o₁ o₂ : List String)
    (hsub : ∀ a, a ∈ o₁ → a ∈ o₂) :
    (obsContribution o₁).1 ≤ (obsContribution o₂).1 := by
  rw [obsContribution_eq, obsContribution_eq]
  apply filter_sum_mono _ _ _ obsRiskMap_values_nonneg
  intro p _ hp
  rw [decide_eq_true_eq] at hp ⊢
  exact hsub p.1 hp

/-- Enlarging the observation set (by membership) never decreases the
returned score. -/
theorem calculate_risk_score_mono (w : Option WeatherData)
    (o₁ o₂ : List String) (hsub : ∀ a, a ∈ o₁ → a ∈ o₂) :
    (calculate_risk_score w o₁).1 ≤ (calculate_risk_score w o₂).1 := by
  cases w with
  | none => exact le_refl _
  | some wd =>
      simp only [calculate_risk_score]
      exact min_le_min (le_refl _)
        (by linarith [obsContribution_mono o₁ o₂ hsub])

/-- The level rank is monotone in the score. -/
theorem riskLevelOf_rank_mono {s s' : ℚ} (h : s ≤ s') :
    levelRank (riskLevelOf s) ≤ levelRank (riskLevelOf s') := by
  simp only [riskLevelOf]
  split_ifs with h1 h2 h3 h4 h5 <;> simp [levelRank] <;> linarith

/-! ### Claim theorems -/

/-- C1: for every weather snapshot (including absent weather) and every
observation set, the returned score lies in [0, 100]: each contribution
block adds a non-negative amount starting from 0, and the final sum is
clamped to `min(100, sum)`. -/
theorem risk_score_in_range (w : Option WeatherData) (obs : List String)
    (c : Current) (hourly : Option (List (Option ℚ))) :
    (0 ≤ (calculate_risk_score w obs).1 ∧ (calculate_risk_score w obs).1 ≤ 100) ∧
    0 ≤ (tempContribution c).1 ∧ 0 ≤ (humidityContribution c).1 ∧
    0 ≤ (rainContribution c).1 ∧ 0 ≤ (hourlyContribution hourly).1 ∧
    0 ≤ (obsContribution obs).1 ∧
    (calculate_risk_score (some ⟨c, hourly⟩) obs).1 =
      min 100 ((tempContribution c).1 + (humidityContribution c).1 +
        (rainContribution c).1 + (hourlyContribution hourly).1 +
        (obsContribution obs).1) := by
  refine ⟨?_, tempContribution_nonneg c, humidityContribution_nonneg c,
    rainContribution_nonneg c, hourlyContribution_nonneg hourly,
    obsContribution_nonneg obs, rfl⟩
  cases w with
  | none => norm_num [calculate_risk_score]
  | some wd =>
      constructor
      · simp only [calculate_risk_score]
        exact le_min (by norm_num)
          (by linarith [tempContribution_nonneg wd.current,
            humidityContribution_nonneg wd.current,
            rainContribution_nonneg wd.current,
            hourlyContribution_nonneg wd.hourly, obsContribution_nonneg obs])
      · simp only [calculate_risk_score]
        exact min_le_left _ _

/-- C2: for every input, the returned level is the deterministic step
function of the clamped score: Safe iff score < 30, Caution iff
30 ≤ score < 60, Unsafe iff score ≥ 60. -/
theorem risk_level_step_function (w : Option WeatherData) (obs : List String) :
    ((calculate_risk_score w obs).2.2 = "Safe" ↔
      (calculate_risk_score w obs).1 < 30) ∧
    ((calculate_risk_score w obs).2.2 = "Caution" ↔
      30 ≤ (calculate_risk_score w obs).1 ∧ (calculate_risk_score w obs).1 < 60) ∧
    ((calculate_risk_score w obs).2.2 = "Unsafe" ↔
      60 ≤ (calculate_risk_score w obs).1) := by
  rw [calculate_risk_score_level_eq]
  generalize (calculate_risk_score w obs).1 = s
  simp only [riskLevelOf]
  split_ifs with h1 h2
  · exact ⟨⟨fun _ => h1, fun _ => rfl⟩,
      ⟨fun h => absurd h (by decide), fun h => absurd h.1 (not_le.mpr h1)⟩,
      ⟨fun h => absurd h (by decide), fun h => absurd h (not_le.mpr (by linarith))⟩⟩
  · exact ⟨⟨fun h => absurd h (by decide), fun h => absurd h h1⟩,
      ⟨fun _ => ⟨not_lt.mp h1, h2⟩, fun _ => rfl⟩,
      ⟨fun h => absurd h (by decide), fun h => absurd h2 (not_lt.mpr h)⟩⟩
  · exact ⟨⟨fun h => absurd h (by decide), fun h => absurd h h1⟩,
      ⟨fun h => absurd h (by decide), fun h => absurd h.2 h2⟩,
      ⟨fun _ => not_lt.mp h2, fun _ => rfl⟩⟩

/-- C3: whenever the weather input is absent, the scorer returns exactly
the triple `(50, ["Unable to fetch weather data"], "Caution")`, for every
observation set, and no contribution rule runs (the output is this fixed
triple regardless of the observations). -/
theorem absent_weather_fallback (obs : List String) :
    calculate_risk_score none obs =
      (50, ["Unable to fetch weather data"], "Caution") := rfl

/-- C5: exactly when hourly precipitation data is present, the scorer
computes `p24` as the sum of the last 24 entries and `p72` as the sum of
the last 72 entries (nulls as 0), adds `min(25, (p24 - 10)/40*25)` with a
heavy-rain factor when `p24 > 10`, adds 10 flat with a moderate-rain
factor when `5 < p24 ≤ 10`, and adds 15 flat with a prolonged-rainfall
factor when `p72 > 50`; with hourly data absent it contributes nothing
and appends no factor. -/
theorem hourly_rules_spec (hp : List (Option ℚ)) :
    hourlyContribution none = (0, []) ∧
    hourlyContribution (some hp) =
      (let p24 := ((hp.drop (hp.length - 24)).map (fun p => p.getD 0)).sum
       let p72 := ((hp.drop (hp.length - 72)).map (fun p => p.getD 0)).sum
       ((if 10 < p24 then min 25 ((p24 - 10) / 40 * 25)
         else if 5 < p24 then 10 else 0) +
        (if 50 < p72 then 15 else 0),
        (if 10 < p24 then [heavyRain24hFactor p24]
         else if 5 < p24 then [moderateRain24hFactor p24] else []) ++
        (if 50 < p72 then [prolongedRainFactor p72] else []))) := by
  refine ⟨rfl, ?_⟩
  simp only [hourlyContribution]
  rw [precipData_last24]
  split_ifs <;> rfl

/-- C6: the scorer's output depends only on which of the seven vocabulary
tags are present in the observation input (so reordering or duplicating
observations, or adding tags outside the vocabulary, leaves the output
unchanged), and observation factors are appended in the mapping's
declared order. -/
theorem observation_set_semantics (w : Option WeatherData)
    (o₁ o₂ : List String)
    (h : ∀ p ∈ obsRiskMap, (p.1 ∈ o₁ ↔ p.1 ∈ o₂)) :
    calculate_risk_score w o₁ = calculate_risk_score w o₂ ∧
    (obsContribution o₁).2 =
      (obsRiskMap.filter (fun p => decide (p.1 ∈ o₁))).map
        (fun p => observationFactor p.1) := by
  have hobs : obsContribution o₁ = obsContribution o₂ := by
    rw [obsContribution_eq, obsContribution_eq]
    have hf : obsRiskMap.filter (fun p => decide (p.1 ∈ o₁)) =
        obsRiskMap.filter (fun p => decide (p.1 ∈ o₂)) :=
      List.filter_congr (fun p hp => decide_eq_decide.mpr (h p hp))
    rw [hf]
  constructor
  · cases w with
    | none => rfl
    | some wd => simp only [calculate_risk_score, hobs]
  · exact congrArg Prod.snd (obsContribution_eq o₁)

/-- Witness for C6: a duplicated, reordered observation list with an
out-of-vocabulary tag yields the same output as the plain singleton. -/
theorem observation_set_semantics_witness :
    (∀ p ∈ obsRiskMap, (p.1 ∈ (["Unusual smell"] : List String) ↔
      p.1 ∈ (["totally unknown tag", "Unusual smell", "Unusual smell"] :
        List String))) ∧
    (calculate_risk_score none ["Unusual smell"] =
      calculate_risk_score none
        ["totally unknown tag", "Unusual smell", "Unusual smell"] ∧
     (obsContribution ["Unusual smell"]).2 =
      (obsRiskMap.filter
        (fun p => decide (p.1 ∈ (["Unusual smell"] : List String)))).map
        (fun p => observationFactor p.1)) :=
  ⟨by decide, observation_set_semantics none _ _ (by decide)⟩

/-- C7: the active-precipitation rule takes `r` from the `"rain"` field
exactly when the `"precipitation"` field is zero or absent, and adds
`min(20, r*4)` with an active-rainfall factor iff the resulting `r > 0`;
otherwise it contributes nothing and appends no factor. -/
theorem active_precipitation_rule (c : Current) :
    rainContribution c =
      (let r := if c.precipitation.getD 0 = 0 then c.rain.getD 0
                else c.precipitation.getD 0
       if 0 < r then (min 20 (r * 4), [activeRainfallFactor r])
       else (0, [])) := by
  simp only [rainContribution, pyOr]
  have key : ∀ r : ℚ,
      (if r ≠ 0 ∧ 0 < r then (min 20 (r * 4), [activeRainfallFactor r])
       else (0, [])) =
      (if 0 < r then (min 20 (r * 4), [activeRainfallFactor r])
       else ((0:ℚ), ([] : List String))) := by
    intro r
    by_cases hr : 0 < r
    · rw [if_pos hr, if_pos ⟨hr.ne', hr⟩]
    · rw [if_neg hr, if_neg (fun hc => hr hc.2)]
  exact key _

/-- C8: the selector returns the table entry for the level (the Caution
entry when the level is none of Safe/Caution/Unsafe), and prepends the
critical-alert action iff `score ≥ 80`, regardless of level, leaving the
rest of the action list and its order unchanged. -/
theorem recommendation_selector_spec (risk_level : String) (risk_score : ℚ) :
    (get_recommendations risk_level risk_score).title =
      (recommendationFor risk_level).title ∧
    (get_recommendations risk_level risk_score).color =
      (recommendationFor risk_level).color ∧
    (get_recommendations risk_level risk_score).actions =
      (if 80 ≤ risk_score then [criticalAction] else []) ++
        (recommendationFor risk_level).actions ∧
    (risk_level ≠ "Safe" → risk_level ≠ "Caution" → risk_level ≠ "Unsafe" →
      recommendationFor risk_level = cautionRecommendation) := by
  refine ⟨?_, ?_, ?_, ?_⟩
  · simp only [get_recommendations]
    split_ifs <;> rfl
  · simp only [get_recommendations]
    split_ifs <;> rfl
  · simp only [get_recommendations]
    split_ifs <;> rfl
  · intro h1 h2 h3
    simp [recommendationFor, h1, h2, h3]

/-- Witness for C8: an unknown level falls back to the Caution entry. -/
theorem recommendation_selector_spec_witness :
    (("Bogus" : String) ≠ "Safe" ∧ ("Bogus" : String) ≠ "Caution" ∧
      ("Bogus" : String) ≠ "Unsafe") ∧
    recommendationFor "Bogus" = cautionRecommendation :=
  ⟨by decide, (recommendation_selector_spec "Bogus" 0).2.2.2
    (by decide) (by decide) (by decide)⟩

/-- C9: truncate-to-N leaves exactly `min(N, length)` entries, namely the
first N in the collection's current order, preserving relative order and
leaving each retained entry unmodified (it is a prefix of the original
collection); the "Keep Last 10" handler is the N = 10 instance. -/
theorem truncate_history_spec (n : ℕ) (history : List HistoryEntry) :
    (truncate_history n history).length = min n history.length ∧
    List.IsPrefix (truncate_history n history) history ∧
    keep_last_10 history = truncate_history 10 history :=
  ⟨List.length_take n history,
   ⟨history.drop n, List.take_append_drop n history⟩, rfl⟩

/-- Weather snapshot used by the concrete history-pruning examples. -/
def cxWeather : WeatherData := ⟨⟨some 25, some 50, some 0, some 0⟩, none⟩

/-- A concrete "now": 30 days (in seconds) after timestamp 0. -/
def cxNow : ℚ := 2592000

/-- A history entry whose timestamp is exactly `now - 30 days` for
`now = cxNow`. -/
def cxBoundaryEntry : HistoryEntry :=
  { timestamp := 0, location := "Old site", latitude := 0, longitude := 0,
    risk_score := 10, risk_level := "Safe", risk_factors := [],
    observations := [], notes := "", temperature := none, humidity := none,
    precipitation := 0 }

/-- Counterexample to C4 as stated: an entry whose timestamp is exactly
`now - 30 days` is not strictly older than the cutoff, yet the code's
strict `>` filter removes it on the next save. -/
theorem prune_boundary_counterexample :
    ¬ (cxBoundaryEntry.timestamp < cxNow - 30 * secondsPerDay) ∧
    cxBoundaryEntry ∉
      save_to_history cxNow [cxBoundaryEntry] "Loc" 0 0 cxWeather 10 "Safe"
        [] [] "" := by
  constructor
  · norm_num [cxBoundaryEntry, cxNow, secondsPerDay]
  · intro hmem
    simp only [save_to_history] at hmem
    have h2 := (List.mem_filter.mp hmem).2
    rw [decide_eq_true_eq] at h2
    norm_num [cxNow, secondsPerDay, cxBoundaryEntry] at h2

/-- C4 (amended): after every save, the surviving collection consists of
exactly the prior entries plus the new one, minus those whose timestamp
is not strictly newer than `now - 30 days` (so an entry exactly at the
cutoff is removed, while any strictly newer entry, e.g. at
`now - 29 days`, is retained), with the relative order of survivors
preserved. -/
theorem save_to_history_spec (now : ℚ) (history : List HistoryEntry)
    (location_name : String) (lat lon : ℚ) (weather_data : WeatherData)
    (risk_score : ℚ) (risk_level : String) (risk_factors : List String)
    (observations : List String) (notes : String) :
    List.Sublist
      (save_to_history now history location_name lat lon weather_data
        risk_score risk_level risk_factors observations notes)
      (history ++ [mkHistoryEntry now location_name lat lon weather_data
        risk_score risk_level risk_factors observations notes]) ∧
    (∀ e, e ∈ save_to_history now history location_name lat lon weather_data
        risk_score risk_level risk_factors observations notes ↔
      (e ∈ history ++ [mkHistoryEntry now location_name lat lon weather_data
        risk_score risk_level risk_factors observations notes] ∧
       now - 30 * secondsPerDay < e.timestamp)) ∧
    mkHistoryEntry now location_name lat lon weather_data risk_score
        risk_level risk_factors observations notes ∈
      save_to_history now history location_name lat lon weather_data
        risk_score risk_level risk_factors observations notes := by
  refine ⟨List.filter_sublist _, ?_, ?_⟩
  · intro e
    simp [save_to_history]
    tauto
  · simp only [save_to_history]
    apply List.mem_filter.mpr
    refine ⟨List.mem_append_right _ (List.mem_singleton_self _), ?_⟩
    rw [decide_eq_true_eq]
    show now - 30 * secondsPerDay <
      (mkHistoryEntry now location_name lat lon weather_data risk_score
        risk_level risk_factors observations notes).timestamp
    simp only [mkHistoryEntry, secondsPerDay]
    linarith

/-- A history entry whose timestamp is `now - 29 days` for `now = cxNow`. -/
def cxRecentEntry : HistoryEntry :=
  { timestamp := 86400, location := "Recent site", latitude := 0,
    longitude := 0, risk_score := 10, risk_level := "Safe",
    risk_factors := [], observations := [], notes := "",
    temperature := none, humidity := none, precipitation := 0 }

/-- Witness for the amended C4: an entry at `now - 29 days` survives a
save. -/
theorem save_to_history_spec_witness :
    cxRecentEntry ∈
      save_to_history cxNow [cxRecentEntry] "Loc" 0 0 cxWeather 10 "Safe"
        [] [] "" :=
  ((save_to_history_spec cxNow [cxRecentEntry] "Loc" 0 0 cxWeather 10 "Safe"
      [] [] "").2.1 cxRecentEntry).mpr
    ⟨List.mem_append.mpr (Or.inl (List.mem_singleton_self _)),
     by norm_num [cxNow, secondsPerDay, cxRecentEntry]⟩

/-- C10: for every weather snapshot (present or absent) and observation
set, adding one of the seven vocabulary tags not already present never
decreases the returned score, and never moves the returned level to a
lower category (Safe < Caution < Unsafe). -/
theorem adding_observation_monotone (w : Option WeatherData)
    (S : List String) (t : String) (ht : t ∈ obsRiskMap.map Prod.fst)
    (htS : t ∉ S) :
    (calculate_risk_score w S).1 ≤ (calculate_risk_score w (t :: S)).1 ∧
    levelRank (calculate_risk_score w S).2.2 ≤
      levelRank (calculate_risk_score w (t :: S)).2.2 := by
  have hs := calculate_risk_score_mono w S (t :: S)
    (fun a ha => List.mem_cons_of_mem t ha)
  refine ⟨hs, ?_⟩
  rw [calculate_risk_score_level_eq, calculate_risk_score_level_eq]
  exact riskLevelOf_rank_mono hs

/-- Witness for C10: adding "Sewage overflow" to a set not containing it. -/
theorem adding_observation_monotone_witness :
    ("Sewage overflow" ∈ obsRiskMap.map Prod.fst ∧
     "Sewage overflow" ∉ (["Unusual smell"] : List String)) ∧
    ((calculate_risk_score none ["Unusual smell"]).1 ≤
       (calculate_risk_score none ("Sewage overflow" :: ["Unusual smell"])).1 ∧
     levelRank (calculate_risk_score none ["Unusual smell"]).2.2 ≤
       levelRank
         (calculate_risk_score none ("Sewage overflow" :: ["Unusual smell"])).2.2) :=
  ⟨by decide, adding_observation_monotone none ["Unusual smell"]
    "Sewage overflow" (by decide) (by decide)⟩
